import Mathlib

/-!
Shallow embedding of the wgpu-sandbox repository (src/gpu.rs, src/graphics.rs,
src/app.rs) and verification of its specification claims.

Modelling conventions:
* wgpu bitflag types (`Backends`, `Features`, `TextureUsages`) become `Nat`
  bitmasks; `insert` and `|=` become `|||`, `contains` becomes a mask test.
* Rust panics (`unwrap`, out-of-bounds indexing) become the `error`
  constructor of `Except PanicReason _`; a Rust function whose signature has
  no error type returns `ok` on the happy path.
* Side-effecting library calls (adapter enumeration, surface creation,
  device requests, queue submissions) are modelled by explicit environment
  records supplying their results, and by action traces recording what the
  code asked the library to do, in order.
* `f32` fields that carry geometry data are modelled as `Rat` (the constants
  in the source are all exactly representable); byte buffers as `List Nat`.
-/

/-- wgpu device type enum (wgpu::DeviceType). -/
inductive DeviceType where
  | Other
  | IntegratedGpu
  | DiscreteGpu
  | VirtualGpu
  | Cpu
deriving DecidableEq, Repr

/-- wgpu backend enum (wgpu::Backend); discriminants 0..6 as in wgpu. -/
inductive Backend where
  | Empty
  | Vulkan
  | Metal
  | Dx12
  | Dx11
  | Gl
  | BrowserWebGpu
deriving DecidableEq, Repr

/-- Discriminant of a backend, as in wgpu (`backend as u32`). -/
def Backend.discr : Backend → Nat
  | .Empty => 0
  | .Vulkan => 1
  | .Metal => 2
  | .Dx12 => 3
  | .Dx11 => 4
  | .Gl => 5
  | .BrowserWebGpu => 6

/-- wgpu `Backends::from(backend)`: the single-bit mask `1 << backend as u32`. -/
def backendsFrom (b : Backend) : Nat := 2 ^ b.discr

/-- bitflags `contains`: all bits of `o` are present in `s`. -/
def backendsContains (s o : Nat) : Bool := s &&& o == o

/-- wgpu `Backends::PRIMARY` = VULKAN | METAL | DX12 | BROWSER_WEBGPU. -/
def Backends.PRIMARY : Nat :=
  backendsFrom .Vulkan ||| backendsFrom .Metal ||| backendsFrom .Dx12 |||
    backendsFrom .BrowserWebGpu

/-- wgpu present-mode enum (wgpu::PresentMode). -/
inductive PresentMode where
  | AutoVsync
  | AutoNoVsync
  | Fifo
  | FifoRelaxed
  | Immediate
  | Mailbox
deriving DecidableEq, Repr

/-- wgpu surface alpha-mode enum (wgpu::CompositeAlphaMode); `OpaqueAlpha`
stands for the library's second variant. -/
inductive AlphaMode where
  | Auto
  | OpaqueAlpha
  | PreMultiplied
  | PostMultiplied
  | Inherit
deriving DecidableEq, Repr

/-- Representative subset of wgpu::TextureFormat (the repository only ever
names Rgba8UnormSrgb; the others stand in for arbitrary capability lists). -/
inductive TextureFormat where
  | R8Unorm
  | Rgba8Unorm
  | Rgba8UnormSrgb
  | Bgra8Unorm
  | Bgra8UnormSrgb
deriving DecidableEq, Repr

/-- wgpu `TextureFormat::is_srgb`: true exactly for the `Srgb` variants. -/
def TextureFormat.is_srgb : TextureFormat → Bool
  | .Rgba8UnormSrgb => true
  | .Bgra8UnormSrgb => true
  | _ => false

/-- wgpu `TextureFormat::block_size(None)` for the modelled formats
(bytes per texel; all modelled formats are uncompressed colour formats). -/
def TextureFormat.block_size : TextureFormat → Option Nat
  | .R8Unorm => some 1
  | _ => some 4

/-- wgpu TextureUsages bits. -/
def TextureUsages.COPY_SRC : Nat := 1
def TextureUsages.COPY_DST : Nat := 2
def TextureUsages.TEXTURE_BINDING : Nat := 4
def TextureUsages.STORAGE_BINDING : Nat := 8
def TextureUsages.RENDER_ATTACHMENT : Nat := 16

/-- wgpu device limits; the repository only stores and forwards them, so one
representative field suffices for state tracking. -/
structure Limits where
  max_texture_dimension_2d : Nat := 8192
deriving DecidableEq, Repr

/-- Surface capabilities reported for an adapter
(wgpu `Surface::get_capabilities`). -/
structure SurfaceCapabilities where
  formats : List TextureFormat
  alpha_modes : List AlphaMode
deriving DecidableEq, Repr

/-- An enumerated adapter, as seen through the calls the repository makes:
its `AdapterInfo` fields, whether `is_surface_supported` holds for the one
surface in play, and the capabilities the surface reports for it. -/
structure Adapter where
  device_type : DeviceType
  backend : Backend
  surface_supported : Bool
  caps : SurfaceCapabilities
  name : String := ""
deriving DecidableEq, Repr

/-- src/gpu.rs `GpuBuilder`. -/
structure GpuBuilder where
  backends : Nat
  device_type : DeviceType
  present_mode : PresentMode
  features : Nat
  limits : Limits
deriving DecidableEq, Repr

/-- src/gpu.rs `impl Default for GpuBuilder`. -/
def GpuBuilder.default : GpuBuilder :=
  { backends := Backends.PRIMARY
    device_type := .DiscreteGpu
    present_mode := .Fifo
    features := 0
    limits := {} }

/-- src/gpu.rs `GpuBuilder::new`. -/
def GpuBuilder.new : GpuBuilder := GpuBuilder.default

/-- src/gpu.rs `GpuBuilder::with_backend`:
`self.backends.insert(wgpu::Backends::from(b))`. -/
def GpuBuilder.with_backend (b : GpuBuilder) (x : Backend) : GpuBuilder :=
  { b with backends := b.backends ||| backendsFrom x }

/-- src/gpu.rs `GpuBuilder::with_device`. -/
def GpuBuilder.with_device (b : GpuBuilder) (d : DeviceType) : GpuBuilder :=
  { b with device_type := d }

/-- src/gpu.rs `GpuBuilder::with_feature`: `self.features |= f`. -/
def GpuBuilder.with_feature (b : GpuBuilder) (f : Nat) : GpuBuilder :=
  { b with features := b.features ||| f }

/-- src/gpu.rs `GpuBuilder::with_limits`. -/
def GpuBuilder.with_limits (b : GpuBuilder) (l : Limits) : GpuBuilder :=
  { b with limits := l }

/-- src/gpu.rs `GpuBuilder::with_present_mode`. -/
def GpuBuilder.with_present_mode (b : GpuBuilder) (p : PresentMode) : GpuBuilder :=
  { b with present_mode := p }

/-- src/gpu.rs `GpuBuilder::select_adapter`: linear scan over the adapters
`instance.enumerate_adapters(self.backends)` yields, returning the first one
whose info matches the builder's device type, whose backend bit is contained
in the builder's backend set, and which supports the surface; `none` after
the loop (the source also logs an error there). -/
def GpuBuilder.select_adapter (b : GpuBuilder) (adapters : List Adapter) :
    Option Adapter :=
  match adapters with
  | [] => none
  | a :: rest =>
    if a.device_type == b.device_type
        && backendsContains b.backends (backendsFrom a.backend)
        && a.surface_supported then
      some a
    else
      b.select_adapter rest

/-- Spec-side predicate: the three conditions C1 says an adapter must meet. -/
def adapterMatches (b : GpuBuilder) (a : Adapter) : Bool :=
  a.device_type == b.device_type
    && backendsContains b.backends (backendsFrom a.backend)
    && a.surface_supported

theorem select_adapter_cons (b : GpuBuilder) (a : Adapter) (rest : List Adapter) :
    b.select_adapter (a :: rest) =
      if adapterMatches b a then some a else b.select_adapter rest := rfl

/-- C1: `GpuBuilder::select_adapter` returns the first adapter in enumeration
order satisfying all three filter conditions (device type equal, backend
contained in the builder's backend set, surface supported), and `none`
exactly when no enumerated adapter satisfies them. -/
theorem select_adapter_first_match (b : GpuBuilder) (l : List Adapter) :
    (b.select_adapter l = none ↔ ∀ a ∈ l, adapterMatches b a = false) ∧
    (∀ a, b.select_adapter l = some a →
      adapterMatches b a = true ∧
      ∃ i, l.get? i = some a ∧
        ∀ j, j < i → ∃ a2, l.get? j = some a2 ∧ adapterMatches b a2 = false) := by
  induction l with
  | nil =>
    refine ⟨by simp [GpuBuilder.select_adapter], ?_⟩
    intro a h
    simp [GpuBuilder.select_adapter] at h
  | cons a rest ih =>
    rw [select_adapter_cons]
    by_cases h : adapterMatches b a = true
    · simp only [h, if_pos]
      constructor
      · constructor
        · intro hnone; cases hnone
        · intro hall
          have := hall a (by simp)
          rw [h] at this
          cases this
      · intro a2 ha2
        injection ha2 with ha2
        subst ha2
        refine ⟨h, 0, by simp, ?_⟩
        intro j hj
        omega
    · have hfalse : adapterMatches b a = false := by
        cases hv : adapterMatches b a
        · rfl
        · exact absurd hv h
      simp only [hfalse, Bool.false_eq_true, if_neg, if_false]
      constructor
      · rw [ih.1]
        constructor
        · intro hall a2 ha2
          rcases List.mem_cons.mp ha2 with heq | hmem
          · subst heq; exact hfalse
          · exact hall a2 hmem
        · intro hall a2 ha2
          exact hall a2 (List.mem_cons_of_mem _ ha2)
      · intro a2 ha2
        obtain ⟨hm, i, hi, hbefore⟩ := ih.2 a2 ha2
        refine ⟨hm, i + 1, by simpa using hi, ?_⟩
        intro j hj
        match j with
        | 0 => exact ⟨a, by simp, hfalse⟩
        | k + 1 =>
          obtain ⟨a3, ha3, hm3⟩ := hbefore k (by omega)
          exact ⟨a3, by simpa using ha3, hm3⟩

def c1_adapter_bad : Adapter :=
  { device_type := .Cpu, backend := .Vulkan, surface_supported := true
    caps := { formats := [.Rgba8UnormSrgb], alpha_modes := [.Auto] } }

def c1_adapter_good : Adapter :=
  { device_type := .DiscreteGpu, backend := .Vulkan, surface_supported := true
    caps := { formats := [.Bgra8Unorm, .Bgra8UnormSrgb], alpha_modes := [.OpaqueAlpha] } }

theorem select_adapter_first_match_witness :
    adapterMatches GpuBuilder.default c1_adapter_good = true ∧
    ∃ i, [c1_adapter_bad, c1_adapter_good].get? i = some c1_adapter_good ∧
      ∀ j, j < i → ∃ a2, [c1_adapter_bad, c1_adapter_good].get? j = some a2 ∧
        adapterMatches GpuBuilder.default a2 = false :=
  (select_adapter_first_match GpuBuilder.default [c1_adapter_bad, c1_adapter_good]).2
    c1_adapter_good (by decide)

/-- Surface configuration record (wgpu::SurfaceConfiguration, the fields the
repository sets). -/
structure SurfaceConfiguration where
  format : TextureFormat
  width : Nat
  height : Nat
  present_mode : PresentMode
  usage : Nat
  alpha_mode : AlphaMode
  view_formats : List TextureFormat
deriving DecidableEq, Repr

/-- src/gpu.rs `Gpu`; device, queue and surface are opaque library handles,
modelled as numeric identifiers. -/
structure Gpu where
  device : Nat
  queue : Nat
  surface : Nat
  surface_config : SurfaceConfiguration
deriving DecidableEq, Repr

/-- Panic sites in `GpuBuilder::build` (each an `unwrap` or a `[0]` index). -/
inductive PanicReason where
  | createSurface
  | adapterNotFound
  | requestDevice
  | formatsIndex
  | alphaModesIndex
  | blockSize
deriving DecidableEq, Repr

/-- Environment for `GpuBuilder::build`: the results the windowing and GPU
libraries hand back. Per-adapter surface support and capabilities live in
each `Adapter` record. -/
structure BuildEnv where
  create_surface_result : Option Nat
  adapters : List Adapter
  request_device_result : Option (Nat × Nat)
  window_inner_size : Nat × Nat
deriving DecidableEq, Repr

/-- src/gpu.rs `GpuBuilder::build`: create surface (unwrap), select adapter
(unwrap), request device (unwrap), pick the first sRGB capability format with
`formats[0]` as fallback, and configure the surface with the builder's
present mode, the window's inner size, RENDER_ATTACHMENT usage and
`alpha_modes[0]`. `error` marks the Rust panic sites; the Rust signature
returns a bare `Gpu`. -/
def GpuBuilder.build (b : GpuBuilder) (env : BuildEnv) : Except PanicReason Gpu :=
  match env.create_surface_result with
  | none => .error .createSurface
  | some surface =>
    match b.select_adapter env.adapters with
    | none => .error .adapterNotFound
    | some adapter =>
      match env.request_device_result with
      | none => .error .requestDevice
      | some (device, queue) =>
        let window_size := env.window_inner_size
        let surface_caps := adapter.caps
        match surface_caps.formats with
        | [] => .error .formatsIndex
        | f0 :: _ =>
          let surace_format := (surface_caps.formats.find? TextureFormat.is_srgb).getD f0
          match surface_caps.alpha_modes with
          | [] => .error .alphaModesIndex
          | m0 :: _ =>
            .ok { device, queue, surface
                  surface_config :=
                    { format := surace_format
                      width := window_size.1
                      height := window_size.2
                      present_mode := b.present_mode
                      usage := TextureUsages.RENDER_ATTACHMENT
                      alpha_mode := m0
                      view_formats := [] } }

/-- src/gpu.rs `Gpu::resize_surface` (the accompanying `surface.configure`
call re-submits the stored config and changes no state of this record). -/
def Gpu.resize_surface (g : Gpu) (new_size : Nat × Nat) : Gpu :=
  { g with surface_config :=
      { g.surface_config with width := new_size.1, height := new_size.2 } }

/-- src/gpu.rs `Gpu::get_surface_texture_format`. -/
def Gpu.get_surface_texture_format (g : Gpu) : TextureFormat :=
  g.surface_config.format

/-- C2: when `GpuBuilder::build` reaches surface configuration, the config it
installs has the first sRGB capability format (falling back to the first
capability format), the builder's present mode, the window's inner width and
height, RENDER_ATTACHMENT usage, and the first reported alpha mode. -/
theorem build_surface_config_spec (b : GpuBuilder) (env : BuildEnv)
    (surf : Nat) (dq : Nat × Nat) (adapter : Adapter)
    (f0 : TextureFormat) (fs : List TextureFormat)
    (m0 : AlphaMode) (ms : List AlphaMode)
    (h1 : env.create_surface_result = some surf)
    (h2 : b.select_adapter env.adapters = some adapter)
    (h3 : env.request_device_result = some dq)
    (h4 : adapter.caps.formats = f0 :: fs)
    (h5 : adapter.caps.alpha_modes = m0 :: ms) :
    ∃ g, b.build env = .ok g ∧
      g.surface_config.format = ((f0 :: fs).find? TextureFormat.is_srgb).getD f0 ∧
      g.surface_config.present_mode = b.present_mode ∧
      g.surface_config.width = env.window_inner_size.1 ∧
      g.surface_config.height = env.window_inner_size.2 ∧
      g.surface_config.usage = TextureUsages.RENDER_ATTACHMENT ∧
      g.surface_config.alpha_mode = m0 ∧
      g.surface_config.view_formats = [] := by
  simp only [GpuBuilder.build, h1, h2, h3, h4, h5]
  exact ⟨_, rfl, rfl, rfl, rfl, rfl, rfl, rfl, rfl⟩

def c2_env : BuildEnv :=
  { create_surface_result := some 7
    adapters := [c1_adapter_bad, c1_adapter_good]
    request_device_result := some (3, 4)
    window_inner_size := (640, 360) }

theorem build_surface_config_spec_witness :
    ∃ g, GpuBuilder.default.build c2_env = .ok g ∧
      g.surface_config.format =
        (([.Bgra8Unorm, .Bgra8UnormSrgb] :
            List TextureFormat).find? TextureFormat.is_srgb).getD .Bgra8Unorm ∧
      g.surface_config.present_mode = GpuBuilder.default.present_mode ∧
      g.surface_config.width = c2_env.window_inner_size.1 ∧
      g.surface_config.height = c2_env.window_inner_size.2 ∧
      g.surface_config.usage = TextureUsages.RENDER_ATTACHMENT ∧
      g.surface_config.alpha_mode = .OpaqueAlpha ∧
      g.surface_config.view_formats = [] :=
  build_surface_config_spec GpuBuilder.default c2_env 7 (3, 4) c1_adapter_good
    .Bgra8Unorm [.Bgra8UnormSrgb] .OpaqueAlpha []
    rfl (by decide) rfl rfl rfl

/-- C8: `GpuBuilder::build` reports no failure to its caller: when surface
creation fails, no adapter matches, or the device request fails, the model
reaches the corresponding panic (`unwrap`) instead of an error return value. -/
theorem build_panics_on_failure (b : GpuBuilder) (env : BuildEnv) :
    (env.create_surface_result = none → b.build env = .error .createSurface) ∧
    (∀ s, env.create_surface_result = some s →
      b.select_adapter env.adapters = none →
      b.build env = .error .adapterNotFound) ∧
    (∀ s a, env.create_surface_result = some s →
      b.select_adapter env.adapters = some a →
      env.request_device_result = none →
      b.build env = .error .requestDevice) := by
  refine ⟨?_, ?_, ?_⟩
  · intro h; simp [GpuBuilder.build, h]
  · intro s hs hn; simp [GpuBuilder.build, hs, hn]
  · intro s a hs ha hd; simp [GpuBuilder.build, hs, ha, hd]

def c8_env : BuildEnv :=
  { create_surface_result := some 7
    adapters := [c1_adapter_bad]
    request_device_result := some (3, 4)
    window_inner_size := (640, 360) }

theorem build_panics_on_failure_witness :
    GpuBuilder.default.build c8_env = .error .adapterNotFound :=
  (build_panics_on_failure GpuBuilder.default c8_env).2.1 7 rfl (by decide)

/-- C9: `Gpu::resize_surface` sets the surface config's width and height to
the new size and leaves every other config field, and the device, queue and
surface handles, unchanged. -/
theorem resize_surface_only_dims (g : Gpu) (w h : Nat) :
    (g.resize_surface (w, h)).surface_config.width = w ∧
    (g.resize_surface (w, h)).surface_config.height = h ∧
    (g.resize_surface (w, h)).surface_config.format = g.surface_config.format ∧
    (g.resize_surface (w, h)).surface_config.present_mode = g.surface_config.present_mode ∧
    (g.resize_surface (w, h)).surface_config.usage = g.surface_config.usage ∧
    (g.resize_surface (w, h)).surface_config.alpha_mode = g.surface_config.alpha_mode ∧
    (g.resize_surface (w, h)).surface_config.view_formats = g.surface_config.view_formats ∧
    (g.resize_surface (w, h)).device = g.device ∧
    (g.resize_surface (w, h)).queue = g.queue ∧
    (g.resize_surface (w, h)).surface = g.surface :=
  ⟨rfl, rfl, rfl, rfl, rfl, rfl, rfl, rfl, rfl, rfl⟩

/-- wgpu vertex attribute formats used by the repository, with their byte
sizes. -/
inductive VertexFormat where
  | Float32x2
  | Float32x3
  | Float32x4
deriving DecidableEq, Repr

/-- Byte size of a vertex attribute format. -/
def VertexFormat.size : VertexFormat → Nat
  | .Float32x2 => 8
  | .Float32x3 => 12
  | .Float32x4 => 16

/-- wgpu vertex step mode; `InstanceMode` stands for the per-instance
variant (unused by the repository). -/
inductive VertexStepMode where
  | Vertex
  | InstanceMode
deriving DecidableEq, Repr

/-- wgpu::VertexAttribute. -/
structure VertexAttribute where
  format : VertexFormat
  shader_location : Nat
  offset : Nat
deriving DecidableEq, Repr

/-- wgpu::VertexBufferLayout. -/
structure VertexBufferLayout where
  array_stride : Nat
  step_mode : VertexStepMode
  attributes : List VertexAttribute
deriving DecidableEq, Repr

/-- src/graphics.rs `Vertex2D` (repr(C): pos [f32;2] then uv [f32;2]). -/
structure Vertex2D where
  pos : Rat × Rat
  uv : Rat × Rat
deriving DecidableEq, Repr

/-- Field sizes of `Vertex2D` in declaration order: [f32;2] = 8 bytes each. -/
def Vertex2D.field_sizes : List Nat := [8, 8]

/-- `std::mem::size_of::<Vertex2D>()`: repr(C), all fields align 4, so the
size is the sum of the field sizes with no padding. -/
def Vertex2D.size_of : Nat := Vertex2D.field_sizes.sum

/-- src/graphics.rs `Vertex2D::desc`. -/
def Vertex2D.desc : VertexBufferLayout :=
  { array_stride := Vertex2D.size_of
    step_mode := .Vertex
    attributes :=
      [ { format := .Float32x2, shader_location := 0, offset := 0 }
      , { format := .Float32x2, shader_location := 1, offset := 8 } ] }

/-- src/graphics.rs `vertex2d_const`. -/
def vertex2d_const (pos : Rat × Rat) (uv : Rat × Rat) : Vertex2D :=
  { pos, uv }

/-- src/graphics.rs `QUAD`. -/
def QUAD : List Vertex2D :=
  [ vertex2d_const (-0.5, 0.5) (0, 0)
  , vertex2d_const (-0.5, -0.5) (0, 1)
  , vertex2d_const (0.5, -0.5) (1, 1)
  , vertex2d_const (0.5, 0.5) (1, 0) ]

/-- src/graphics.rs `QUAD_INDICES`. -/
def QUAD_INDICES : List Nat := [0, 1, 3, 1, 2, 3]

/-- src/graphics.rs `Vertex` (repr(C): pos [f32;4], normal [f32;3],
uv [f32;2]). -/
structure Vertex where
  pos : Rat × Rat × Rat × Rat
  normal : Rat × Rat × Rat
  uv : Rat × Rat
deriving DecidableEq, Repr

/-- Field sizes of `Vertex` in declaration order: 16, 12, 8 bytes. -/
def Vertex.field_sizes : List Nat := [16, 12, 8]

/-- `std::mem::size_of::<Vertex>()`: repr(C), all fields align 4, no
padding. -/
def Vertex.size_of : Nat := Vertex.field_sizes.sum

/-- src/graphics.rs `Vertex::desc`. -/
def Vertex.desc : VertexBufferLayout :=
  { array_stride := Vertex.size_of
    step_mode := .Vertex
    attributes :=
      [ { format := .Float32x4, shader_location := 0, offset := 0 }
      , { format := .Float32x3, shader_location := 1, offset := 16 }
      , { format := .Float32x2, shader_location := 2, offset := 28 } ] }

/-- Offsets of consecutive repr(C) fields given their sizes: each field
starts at the sum of the sizes of the fields before it (no padding, since
every field of these structs has alignment 4). -/
def cumulative_offsets : List Nat → List Nat
  | [] => []
  | s :: rest => 0 :: (cumulative_offsets rest).map (· + s)

/-- C6: each vertex layout descriptor matches its repr(C) struct: strides
equal the struct sizes (16 and 36 bytes), formats and shader locations are
as declared, and every attribute offset is the sum of the sizes of the
preceding fields. -/
theorem vertex_descs_match_struct_layout :
    Vertex2D.desc.array_stride = Vertex2D.size_of ∧
    Vertex2D.size_of = 16 ∧
    Vertex2D.desc.attributes.map (fun a => (a.format, a.shader_location)) =
      [(.Float32x2, 0), (.Float32x2, 1)] ∧
    Vertex2D.desc.attributes.map (fun a => a.offset) =
      cumulative_offsets Vertex2D.field_sizes ∧
    Vertex.desc.array_stride = Vertex.size_of ∧
    Vertex.size_of = 36 ∧
    Vertex.desc.attributes.map (fun a => (a.format, a.shader_location)) =
      [(.Float32x4, 0), (.Float32x3, 1), (.Float32x2, 2)] ∧
    Vertex.desc.attributes.map (fun a => a.offset) =
      cumulative_offsets Vertex.field_sizes := by
  refine ⟨rfl, rfl, rfl, ?_, rfl, rfl, rfl, ?_⟩ <;> decide

/-- C7: the textured-quad constants are consistent: 4 vertices, 6 indices
(two triangles), every index strictly below 4. -/
theorem quad_indices_in_bounds :
    QUAD.length = 4 ∧ QUAD_INDICES.length = 6 ∧
    ∀ i ∈ QUAD_INDICES, i < QUAD.length := by
  refine ⟨rfl, rfl, ?_⟩
  decide

/-- wgpu texture dimension enum. -/
inductive TextureDimension where
  | D1
  | D2
  | D3
deriving DecidableEq, Repr

/-- wgpu address mode enum. -/
inductive AddressMode where
  | ClampToEdge
  | MirrorRepeat
  | ClampToBorder
  | RepeatMode
deriving DecidableEq, Repr

/-- wgpu filter mode enum. -/
inductive FilterMode where
  | Nearest
  | Linear
deriving DecidableEq, Repr

/-- wgpu::Extent3d. -/
structure Extent3d where
  width : Nat
  height : Nat
  depth_or_array_layers : Nat
deriving DecidableEq, Repr

/-- wgpu::TextureDescriptor (fields the repository sets). -/
structure TextureDescriptor where
  label : Option String
  format : TextureFormat
  dimension : TextureDimension
  usage : Nat
  mip_level_count : Nat
  sample_count : Nat
  size : Extent3d
  view_formats : List TextureFormat
deriving DecidableEq, Repr

/-- wgpu::SamplerDescriptor; the fields the repository sets, plus
`mipmap_filter`, whose wgpu default the `..Default::default()` spread fills
in (float LOD-clamp defaults are omitted from the model). -/
structure SamplerDescriptor where
  label : Option String := none
  address_mode_u : AddressMode := .ClampToEdge
  address_mode_v : AddressMode := .ClampToEdge
  address_mode_w : AddressMode := .ClampToEdge
  mag_filter : FilterMode := .Nearest
  min_filter : FilterMode := .Nearest
  mipmap_filter : FilterMode := .Nearest
deriving DecidableEq, Repr

/-- src/graphics.rs `TextureBuilder`. -/
structure TextureBuilder where
  data : List Nat
  format : TextureFormat
  usages : Nat
  address_mode : AddressMode
  min_filter : FilterMode
  mag_filter : FilterMode
  texture_desc : Option TextureDescriptor
  sampler_desc : Option SamplerDescriptor
deriving DecidableEq, Repr

/-- src/graphics.rs `impl Default for TextureBuilder`. -/
def TextureBuilder.default : TextureBuilder :=
  { format := .Rgba8UnormSrgb
    usages := TextureUsages.COPY_DST ||| TextureUsages.TEXTURE_BINDING
    address_mode := .ClampToEdge
    min_filter := .Nearest
    mag_filter := .Linear
    texture_desc := none
    sampler_desc := none
    data := [] }

/-- src/graphics.rs `TextureBuilder::new`. -/
def TextureBuilder.new : TextureBuilder := TextureBuilder.default

/-- src/graphics.rs `TextureBuilder::with_format`. -/
def TextureBuilder.with_format (b : TextureBuilder) (f : TextureFormat) :
    TextureBuilder :=
  { b with format := f }

/-- src/graphics.rs `TextureBuilder::with_usages`: `self.usages |= u`. -/
def TextureBuilder.with_usages (b : TextureBuilder) (u : Nat) : TextureBuilder :=
  { b with usages := b.usages ||| u }

/-- src/graphics.rs `TextureBuilder::with_address_mode`. -/
def TextureBuilder.with_address_mode (b : TextureBuilder) (m : AddressMode) :
    TextureBuilder :=
  { b with address_mode := m }

/-- src/graphics.rs `TextureBuilder::with_min_filter`. -/
def TextureBuilder.with_min_filter (b : TextureBuilder) (ft : FilterMode) :
    TextureBuilder :=
  { b with min_filter := ft }

/-- src/graphics.rs `TextureBuilder::with_mag_filter`. -/
def TextureBuilder.with_mag_filter (b : TextureBuilder) (ft : FilterMode) :
    TextureBuilder :=
  { b with mag_filter := ft }

/-- src/graphics.rs `TextureBuilder::with_texture_desc`. -/
def TextureBuilder.with_texture_desc (b : TextureBuilder) (td : TextureDescriptor) :
    TextureBuilder :=
  { b with texture_desc := some td }

/-- src/graphics.rs `TextureBuilder::with_sampler_desc`. -/
def TextureBuilder.with_sampler_desc (b : TextureBuilder) (sd : SamplerDescriptor) :
    TextureBuilder :=
  { b with sampler_desc := some sd }

/-- src/graphics.rs `TextureBuilder::with_data`. -/
def TextureBuilder.with_data (b : TextureBuilder) (d : List Nat) : TextureBuilder :=
  { b with data := d }

/-- src/graphics.rs `Texture`: the created texture is recorded by the
descriptor the device was given. -/
structure Texture where
  texture : TextureDescriptor
  sampler : SamplerDescriptor
  size : Extent3d
  texel_size : Nat
deriving DecidableEq, Repr

/-- A `queue.write_texture` call as issued by `Texture::upload_data`. -/
structure QueueWrite where
  data : List Nat
  mip_level : Nat
  bytes_per_row : Nat
  rows_per_image : Nat
  size : Extent3d
deriving DecidableEq, Repr

/-- src/graphics.rs `Texture::upload_data`: writes the data to the queue
unless it is empty. -/
def Texture.upload_data (t : Texture) (data : List Nat) : List QueueWrite :=
  if data.length != 0 then
    [ { data
        mip_level := 0
        bytes_per_row := t.size.width * t.texel_size
        rows_per_image := t.size.height
        size := t.size } ]
  else
    []

/-- src/graphics.rs `TextureBuilder::build`: create the texture from the
explicit descriptor when present, otherwise from a 2D descriptor built from
the builder's fields and `dim`; create the sampler from the explicit
descriptor when present, otherwise from the builder's address mode and
filters; then upload the builder's data. Returns the texture together with
the queue writes issued; `error` marks the `block_size(None).unwrap()` panic
site. -/
def TextureBuilder.build (b : TextureBuilder) (dim : Nat × Nat) :
    Except PanicReason (Texture × List QueueWrite) :=
  let size : Extent3d :=
    { width := dim.1, height := dim.2, depth_or_array_layers := 1 }
  let wgpu_texture : TextureDescriptor :=
    match b.texture_desc with
    | some desc => desc
    | none =>
      { label := none
        format := b.format
        dimension := .D2
        usage := b.usages
        mip_level_count := 1
        sample_count := 1
        size
        view_formats := [] }
  let sampler : SamplerDescriptor :=
    match b.sampler_desc with
    | some desc => desc
    | none =>
      { address_mode_u := b.address_mode
        address_mode_v := b.address_mode
        address_mode_w := b.address_mode
        min_filter := b.min_filter
        mag_filter := b.mag_filter }
  match b.format.block_size with
  | none => .error .blockSize
  | some ts =>
    let texture : Texture :=
      { texture := wgpu_texture, sampler, size, texel_size := ts }
    .ok (texture, texture.upload_data b.data)

/-- C5: `TextureBuilder::build` uses the explicit texture descriptor when one
was supplied and otherwise a 2D descriptor from the builder's format, usages
and the given dimensions with depth 1, one mip level and one sample; the
sampler likewise comes from the explicit descriptor or from the builder's
address mode (all three axes) and filters; and the builder's data is then
uploaded to the created texture (one queue write carrying exactly that data,
none when the data is empty). -/
theorem texture_builder_build_spec (b : TextureBuilder) (dim : Nat × Nat)
    (t : Texture) (ws : List QueueWrite)
    (h : b.build dim = .ok (t, ws)) :
    (∀ td, b.texture_desc = some td → t.texture = td) ∧
    (b.texture_desc = none →
      t.texture =
        { label := none
          format := b.format
          dimension := .D2
          usage := b.usages
          mip_level_count := 1
          sample_count := 1
          size := { width := dim.1, height := dim.2, depth_or_array_layers := 1 }
          view_formats := [] }) ∧
    (∀ sd, b.sampler_desc = some sd → t.sampler = sd) ∧
    (b.sampler_desc = none →
      t.sampler =
        { address_mode_u := b.address_mode
          address_mode_v := b.address_mode
          address_mode_w := b.address_mode
          min_filter := b.min_filter
          mag_filter := b.mag_filter }) ∧
    (b.data = [] → ws = []) ∧
    (b.data ≠ [] → ∃ w, ws = [w] ∧ w.data = b.data) := by
  have hbs : ∃ ts, b.format.block_size = some ts := by
    cases b.format <;> exact ⟨_, rfl⟩
  obtain ⟨ts, hts⟩ := hbs
  simp only [TextureBuilder.build, hts] at h
  injection h with h
  injection h with ht hw
  subst ht
  subst hw
  refine ⟨?_, ?_, ?_, ?_, ?_, ?_⟩
  · intro td htd; simp [htd]
  · intro htd; simp [htd]
  · intro sd hsd; simp [hsd]
  · intro hsd; simp [hsd]
  · intro hd; simp [Texture.upload_data, hd]
  · intro hd
    simp only [Texture.upload_data]
    rw [if_pos (by simpa using hd)]
    exact ⟨_, rfl, rfl⟩

def c5_builder : TextureBuilder := TextureBuilder.new.with_data [5, 6, 7, 8]

def c5_texture : Texture :=
  { texture :=
      { label := none
        format := .Rgba8UnormSrgb
        dimension := .D2
        usage := 6
        mip_level_count := 1
        sample_count := 1
        size := { width := 1, height := 1, depth_or_array_layers := 1 }
        view_formats := [] }
    sampler :=
      { address_mode_u := .ClampToEdge
        address_mode_v := .ClampToEdge
        address_mode_w := .ClampToEdge
        min_filter := .Nearest
        mag_filter := .Linear }
    size := { width := 1, height := 1, depth_or_array_layers := 1 }
    texel_size := 4 }

def c5_writes : List QueueWrite :=
  [ { data := [5, 6, 7, 8]
      mip_level := 0
      bytes_per_row := 4
      rows_per_image := 1
      size := { width := 1, height := 1, depth_or_array_layers := 1 } } ]

theorem texture_builder_build_spec_witness :
    c5_builder.build (1, 1) = .ok (c5_texture, c5_writes) ∧
    ((∀ td, c5_builder.texture_desc = some td → c5_texture.texture = td) ∧
      (c5_builder.texture_desc = none →
        c5_texture.texture =
          { label := none
            format := c5_builder.format
            dimension := .D2
            usage := c5_builder.usages
            mip_level_count := 1
            sample_count := 1
            size := { width := 1, height := 1, depth_or_array_layers := 1 }
            view_formats := [] }) ∧
      (∀ sd, c5_builder.sampler_desc = some sd → c5_texture.sampler = sd) ∧
      (c5_builder.sampler_desc = none →
        c5_texture.sampler =
          { address_mode_u := c5_builder.address_mode
            address_mode_v := c5_builder.address_mode
            address_mode_w := c5_builder.address_mode
            min_filter := c5_builder.min_filter
            mag_filter := c5_builder.mag_filter }) ∧
      (c5_builder.data = [] → c5_writes = []) ∧
      (c5_builder.data ≠ [] → ∃ w, c5_writes = [w] ∧ w.data = c5_builder.data)) :=
  ⟨rfl, texture_builder_build_spec c5_builder (1, 1) c5_texture c5_writes rfl⟩

/-- winit virtual key codes used by the loop (plus representatives). -/
inductive VirtualKeyCode where
  | Escape
  | Space
  | Return
  | A
deriving DecidableEq, Repr

/-- winit element state. -/
inductive ElementState where
  | Pressed
  | Released
deriving DecidableEq, Repr

/-- winit window events as matched by `App::run` (with representatives of
the events its `_ => ()` arm ignores). -/
inductive WindowEvent where
  | CloseRequested
  | KeyboardInputEvent (virtual_keycode : Option VirtualKeyCode) (state : ElementState)
  | Resized (width : Nat) (height : Nat)
  | CursorMoved (x : Nat) (y : Nat)
  | Focused (f : Bool)
deriving DecidableEq, Repr

/-- Result of one pass through the `Event::WindowEvent` arm of `App::run`:
whether `control_flow.set_exit()` was called, the Gpu state after the arm,
and the events delivered to `instance.events`. -/
structure WindowEventOut where
  set_exit : Bool
  gpu : Gpu
  delivered : List WindowEvent
deriving DecidableEq, Repr

/-- src/app.rs `App::run`, `Event::WindowEvent` arm: the loop first handles
the event itself (close request exits; a pressed Escape exits when `esc` is
set; a resize reconfigures the surface) and then forwards the same event to
the instance's `events` callback. -/
def handle_window_event (esc : Bool) (gpu : Gpu) (event : WindowEvent) :
    WindowEventOut :=
  let self_handled : Bool × Gpu :=
    match event with
    | .CloseRequested => (true, gpu)
    | .KeyboardInputEvent (some .Escape) .Pressed => (esc, gpu)
    | .KeyboardInputEvent _ _ => (false, gpu)
    | .Resized w h => (false, gpu.resize_surface (w, h))
    | _ => (false, gpu)
  { set_exit := self_handled.1
    gpu := self_handled.2
    delivered := [event] }

/-- C4: every window event the loop receives is forwarded to the instance's
`events` callback, including the events the loop also handles itself (close
requested, Escape key press, resize). -/
theorem window_events_passed_through (esc : Bool) (gpu : Gpu) (event : WindowEvent) :
    (handle_window_event esc gpu event).delivered = [event] := rfl

/-- winit surface errors as matched by the redraw arm. -/
inductive SurfaceError where
  | Timeout
  | Outdated
  | Lost
  | OutOfMemory
deriving DecidableEq, Repr

/-- What the `Event::RedrawRequested` arm asks of the instance and the GPU,
in order. -/
inductive RedrawAction where
  | update (dt : Nat)
  | render_call (frame_view : Nat)
  | submit (bufs : List Nat)
  | present
deriving DecidableEq, Repr

/-- Environment for one `RedrawRequested` pass: the current instant, what
`surface.get_current_texture()` returns (a frame handle, from which the view
is created), and what `instance.render` would return. -/
structure RedrawEnv where
  now : Nat
  surface_result : Except SurfaceError Nat
  render_result : Option (List Nat)
deriving Repr

/-- src/app.rs `App::run`, `Event::RedrawRequested` arm: update the instance
with the time since the last frame and advance `last_frame`; then, if a
frame was acquired, render to its view, submit the returned command buffers
(`unwrap_or(vec![])`), and present; on a surface error only a message is
printed. Returns the action trace and the new `last_frame`. -/
def redraw_requested (env : RedrawEnv) (last_frame : Nat) :
    List RedrawAction × Nat :=
  let dt := env.now - last_frame
  match env.surface_result with
  | .ok frame =>
    ([ .update dt
     , .render_call frame
     , .submit (env.render_result.getD [])
     , .present ], env.now)
  | .error _ => ([.update dt], env.now)

/-- C3: on every redraw the instance is updated with the elapsed time first;
when the surface texture is acquired, render is called on the frame's view,
the command buffers render returned (empty when it returned none) are
submitted, and the frame is presented, in that order; when acquisition
fails, update still ran but nothing is rendered, submitted or presented. -/
theorem redraw_update_render_submit_present (env : RedrawEnv) (last_frame : Nat) :
    (∀ frame, env.surface_result = .ok frame →
      redraw_requested env last_frame =
        ([ .update (env.now - last_frame)
         , .render_call frame
         , .submit (env.render_result.getD [])
         , .present ], env.now)) ∧
    (∀ e, env.surface_result = .error e →
      redraw_requested env last_frame =
        ([.update (env.now - last_frame)], env.now)) := by
  constructor
  · intro frame hf; simp [redraw_requested, hf]
  · intro e he; simp [redraw_requested, he]

def c3_env_ok : RedrawEnv :=
  { now := 10, surface_result := .ok 2, render_result := none }

theorem redraw_update_render_submit_present_witness :
    redraw_requested c3_env_ok 4 =
      ([ .update 6, .render_call 2, .submit [], .present ], 10) :=
  (redraw_update_render_submit_present c3_env_ok 4).1 2 rfl

/-- C10: the accumulating setters are monotone: `with_backend` ORs the
backend's bit into the backend set, `with_feature` ORs features in, and
`with_usages` ORs usages in, so every previously set flag stays set and the
given flags are contained in the result. -/
theorem accumulating_setters_monotone (b : GpuBuilder) (x : Backend) (f : Nat)
    (tb : TextureBuilder) (u : Nat) (i : Nat) :
    (b.backends.testBit i = true → (b.with_backend x).backends.testBit i = true) ∧
    backendsContains (b.with_backend x).backends (backendsFrom x) = true ∧
    (b.features.testBit i = true → (b.with_feature f).features.testBit i = true) ∧
    (f.testBit i = true → (b.with_feature f).features.testBit i = true) ∧
    (tb.usages.testBit i = true → (tb.with_usages u).usages.testBit i = true) ∧
    (u.testBit i = true → (tb.with_usages u).usages.testBit i = true) := by
  refine ⟨?_, ?_, ?_, ?_, ?_, ?_⟩
  · intro h
    simp [GpuBuilder.with_backend, Nat.testBit_or, h]
  · simp only [GpuBuilder.with_backend, backendsContains, beq_iff_eq]
    apply Nat.eq_of_testBit_eq
    intro j
    simp only [Nat.testBit_and, Nat.testBit_or]
    cases b.backends.testBit j <;> cases (backendsFrom x).testBit j <;> rfl
  · intro h
    simp [GpuBuilder.with_feature, Nat.testBit_or, h]
  · intro h
    simp [GpuBuilder.with_feature, Nat.testBit_or, h]
  · intro h
    simp [TextureBuilder.with_usages, Nat.testBit_or, h]
  · intro h
    simp [TextureBuilder.with_usages, Nat.testBit_or, h]

def c10_builder : GpuBuilder := GpuBuilder.default.with_feature 4

theorem accumulating_setters_monotone_witness :
    (c10_builder.backends.testBit 2 = true ∧
      (c10_builder.with_backend .Gl).backends.testBit 2 = true) ∧
    backendsContains (c10_builder.with_backend .Gl).backends (backendsFrom .Gl) = true ∧
    (c10_builder.features.testBit 2 = true ∧
      (c10_builder.with_feature 4).features.testBit 2 = true) ∧
    ((4 : Nat).testBit 2 = true ∧
      (c10_builder.with_feature 4).features.testBit 2 = true) ∧
    (TextureBuilder.default.usages.testBit 2 = true ∧
      (TextureBuilder.default.with_usages 4).usages.testBit 2 = true) ∧
    ((4 : Nat).testBit 2 = true ∧
      (TextureBuilder.default.with_usages 4).usages.testBit 2 = true) :=
  ⟨⟨by decide,
    (accumulating_setters_monotone c10_builder .Gl 4 TextureBuilder.default 4 2).1
      (by decide)⟩,
   (accumulating_setters_monotone c10_builder .Gl 4 TextureBuilder.default 4 2).2.1,
   ⟨by decide,
    (accumulating_setters_monotone c10_builder .Gl 4 TextureBuilder.default 4 2).2.2.1
      (by decide)⟩,
   ⟨by decide,
    (accumulating_setters_monotone c10_builder .Gl 4 TextureBuilder.default 4 2).2.2.2.1
      (by decide)⟩,
   ⟨by decide,
    (accumulating_setters_monotone c10_builder .Gl 4 TextureBuilder.default 4 2).2.2.2.2.1
      (by decide)⟩,
   ⟨by decide,
    (accumulating_setters_monotone c10_builder .Gl 4 TextureBuilder.default 4 2).2.2.2.2.2
      (by decide)⟩⟩
